import Mathlib

/-!
# Verification of the digitalDocumentSignature backend signing core

Shallow embedding of the signature-application engine of the repository
`digitalDocumentSignature-backend`:

* `src/utils/pdf-signer.js` — `signPdfWithImage`, `signPdfWithText` and their
  inner helpers (`hexToRgb`, the font-resolution switch, the data-URL image
  decoding branch);
* `src/routes/api.js` — the `/apply-signatures` batch loop (empty-list check,
  per-request dispatch on `type`, skip-with-warning for unknown types,
  wrap-and-rethrow on failure).

Modelling conventions:

* A PDF byte buffer is `PdfFile`: either `invalid junk` (bytes that
  `PDFDocument.load` rejects) or `valid doc` (the serialization of the
  abstract document `doc`).  `pdfLoad`/`pdfSave` model `PDFDocument.load`
  and `pdfDoc.save()`.
* JS numbers used as coordinates, sizes and colour channels are `ℚ`;
  `pageNumber` is `ℤ` (the claims only concern integral page numbers).
* Behaviour of the external `pdf-lib`/Node primitives that the repository
  merely calls (PNG/JPEG decoding of the base64 payload, fallibility of
  standard-font embedding) is a parameter `PdfLibOracle`, so every theorem
  quantifies over all possible library behaviours.
* Thrown JS errors are `Except.error` values of the structured type
  `SignError` (compositor level) or `PipeError` (batch level); `console.warn`
  events are collected in a `List Warn`.
-/

namespace DocSig

/-- The four standard fonts the switch in `signPdfWithText` can embed
(`StandardFonts.Helvetica`, `.HelveticaBold`, `.TimesRoman`, `.Courier`). -/
inductive StdFont
  | helvetica
  | helveticaBold
  | timesRoman
  | courier
deriving DecidableEq, Repr

/-- A visual element drawn onto a page: `page.drawImage` records the position
and the (already scaled) width/height; `page.drawText` records the literal
text, position, resolved font, size and RGB colour channels. -/
inductive Elem
  | image (x y width height : ℚ)
  | text (content : String) (x y : ℚ) (font : StdFont) (size : ℚ) (r g b : ℚ)
deriving DecidableEq, Repr

/-- One page of the working document: its dimensions (`page.getWidth()`,
`page.getHeight()`) and the list of elements drawn on it, in draw order. -/
structure Page where
  width : ℚ
  height : ℚ
  elems : List Elem
deriving DecidableEq, Repr

/-- The in-memory working document: `pdfDoc.getPages()` is `pages`. -/
structure PdfDoc where
  pages : List Page
deriving DecidableEq, Repr

/-- A PDF byte buffer.  `valid doc` is the byte serialization of `doc`;
`invalid junk` is any buffer that `PDFDocument.load` fails to parse.
Equality of `PdfFile` models byte-for-byte equality of the buffers. -/
inductive PdfFile
  | invalid (junk : List Nat)
  | valid (doc : PdfDoc)
deriving DecidableEq, Repr

/-- `PDFDocument.load`: succeeds exactly on serialized documents. -/
def pdfLoad : PdfFile → Option PdfDoc
  | .invalid _ => none
  | .valid doc => some doc

/-- `pdfDoc.save()`: re-serializes the working document. -/
def pdfSave (doc : PdfDoc) : PdfFile := .valid doc

/-- `console.warn` events emitted by the signing core. -/
inductive Warn
  | coordsOutOfBounds (x y width height : ℚ)
  | fontNotFound (name : String)
  | unknownSignatureType (t : String)
deriving DecidableEq, Repr

/-- Errors thrown inside `signPdfWithImage` / `signPdfWithText`.
`base64InputTypeError` is the Node `TypeError` thrown by
`Buffer.from(undefined, 'base64')` when the data URL has no comma
(`imageDataUrl.split(',')[1]` is `undefined`); the other constructors are the
explicit `throw new Error(...)` sites and the fallible `pdf-lib` calls. -/
inductive SignError
  | malformedDocument
  | pageOutOfBounds (requested : ℤ) (actual : ℕ)
  | base64InputTypeError
  | imageDecodeError
  | unsupportedImageFormat
  | fontEmbedError
  | invalidColorValue
deriving DecidableEq, Repr

/-- The `message` property of each thrown error.  The two messages built by
the repository itself are reproduced verbatim; the messages of errors
originating inside `pdf-lib`/Node are abstracted by fixed strings. -/
def signMessage : SignError → String
  | .malformedDocument => "Failed to parse PDF document"
  | .pageOutOfBounds requested actual =>
      "Page number " ++ toString requested ++ " is out of bounds. PDF has " ++
        toString actual ++ " pages."
  | .base64InputTypeError => "The first argument must be of type string"
  | .imageDecodeError => "Failed to decode image"
  | .unsupportedImageFormat => "Unsupported image format. Only PNG and JPEG are supported."
  | .fontEmbedError => "Failed to embed font"
  | .invalidColorValue => "Invalid color value"

/-- Errors surfaced by the `/apply-signatures` batch route:
the empty-list validation, and the wrapper
`Failed to apply signature ${i + 1}: ${signatureError.message}`. -/
inductive PipeError
  | noSignaturesProvided
  | applyFailed (pos : ℕ) (inner : SignError)
deriving DecidableEq, Repr

/-- The message of a batch-level error, as the route builds it. -/
def pipeMessage : PipeError → String
  | .noSignaturesProvided => "No signatures provided"
  | .applyFailed pos inner =>
      "Failed to apply signature " ++ toString pos ++ ": " ++ signMessage inner

/-- Behaviour of the external library primitives the repository calls but does
not define: given the base64 payload (the substring after the first comma of
the data URL), `decodePng`/`decodeJpg` return the intrinsic width/height of
the decoded image, or `none` when `embedPng`/`embedJpg` throws;
`embedFontFails f` tells whether `pdfDoc.embedFont` throws for the standard
font `f`. -/
structure PdfLibOracle where
  decodePng : String → Option (ℚ × ℚ)
  decodeJpg : String → Option (ℚ × ℚ)
  embedFontFails : StdFont → Bool

/-- JS `s.substring(i, j)` for `i ≤ j` (both ends clamped to the length). -/
def jsSubstring (s : String) (i j : ℕ) : String :=
  String.mk ((s.data.drop i).take (j - i))

/-- Value of one hexadecimal digit, as accepted by JS `parseInt(·, 16)`. -/
def hexDigitVal (c : Char) : Option ℕ :=
  if ('0' ≤ c ∧ c ≤ '9') then some (c.toNat - Char.toNat '0')
  else if ('a' ≤ c ∧ c ≤ 'f') then some (c.toNat - Char.toNat 'a' + 10)
  else if ('A' ≤ c ∧ c ≤ 'F') then some (c.toNat - Char.toNat 'A' + 10)
  else none

/-- JS `parseInt(s, 16)`: parses the maximal leading run of hex digits;
`none` models the `NaN` result when the string starts with no hex digit. -/
def parseIntHex (s : String) : Option ℕ :=
  let digits := s.data.takeWhile (fun c => (hexDigitVal c).isSome)
  if digits.isEmpty then none
  else some (digits.foldl (fun acc c => acc * 16 + ((hexDigitVal c).getD 0)) 0)

/-- The inner `hexToRgb` of `signPdfWithText`: channels are
`parseInt(hex.substring(1, 3), 16) / 255` etc. — the first character of the
input is always skipped.  `none` models a `NaN` channel, on which the
`pdf-lib` `rgb(r, g, b)` range assertion throws. -/
def hexToRgb (hex : String) : Option (ℚ × ℚ × ℚ) :=
  match parseIntHex (jsSubstring hex 1 3), parseIntHex (jsSubstring hex 3 5),
      parseIntHex (jsSubstring hex 5 7) with
  | some r, some g, some b => some ((r : ℚ) / 255, (g : ℚ) / 255, (b : ℚ) / 255)
  | _, _, _ => none

/-- JS `fontName.toLowerCase()`, character by character (faithful on the
ASCII font names the resolution switch compares against). -/
def jsToLower (s : String) : String := String.mk (s.data.map Char.toLower)

/-- The font-resolution `switch` of `signPdfWithText` together with its
`try/catch`: the request's `fontName` is lowercased and matched against four
standard names; an unmatched name warns and picks Helvetica.  If embedding
the picked font throws, the `catch` block embeds Helvetica instead — and if
that terminal embed also throws, the error propagates to the caller. -/
def resolveFont (orc : PdfLibOracle) (name : String) :
    Except SignError (StdFont × List Warn) :=
  let lower := jsToLower name
  let pick : StdFont × List Warn :=
    if lower = "helvetica" then (.helvetica, [])
    else if lower = "helvetica-bold" then (.helveticaBold, [])
    else if lower = "times-roman" then (.timesRoman, [])
    else if lower = "courier" then (.courier, [])
    else (.helvetica, [.fontNotFound name])
  if orc.embedFontFails pick.1 then
    if orc.embedFontFails .helvetica then .error .fontEmbedError
    else .ok (.helvetica, pick.2)
  else .ok pick

/-- The fixed downscale factor `image.scale(0.2)` of `signPdfWithImage`. -/
def imageScaleFactor : ℚ := 0.2

/-- Splitting a character list at every comma, as JS `split(',')` does. -/
def splitCommaAux (cur : List Char) : List Char → List (List Char)
  | [] => [cur.reverse]
  | c :: rest =>
    if c = ',' then cur.reverse :: splitCommaAux [] rest
    else splitCommaAux (c :: cur) rest

/-- JS `s.split(',')`. -/
def jsSplitComma (s : String) : List String :=
  (splitCommaAux [] s.data).map String.mk

/-- JS `s.startsWith(pre)`. -/
def jsStartsWith (s pre : String) : Bool := pre.data.isPrefixOf s.data

/-- The image-decoding steps of `signPdfWithImage`, in source order:
`Buffer.from(imageDataUrl.split(',')[1], 'base64')` first (a Node `TypeError`
when the URL has no comma), then the prefix branch selecting
`embedPng`/`embedJpg`, else the `Unsupported image format` throw.  Returns
the intrinsic width/height of the embedded image. -/
def decodeImage (orc : PdfLibOracle) (imageDataUrl : String) :
    Except SignError (ℚ × ℚ) :=
  match (jsSplitComma imageDataUrl).get? 1 with
  | none => .error .base64InputTypeError
  | some payload =>
    if jsStartsWith imageDataUrl ("data:image/png") then
      match orc.decodePng payload with
      | some wh => .ok wh
      | none => .error .imageDecodeError
    else if jsStartsWith imageDataUrl ("data:image/jpeg") then
      match orc.decodeJpg payload with
      | some wh => .ok wh
      | none => .error .imageDecodeError
    else .error .unsupportedImageFormat

/-- Result of one compositor call: the re-serialized bytes and the warnings
emitted along the way. -/
structure SignOut where
  bytes : PdfFile
  warnings : List Warn
deriving DecidableEq, Repr

/-- A page used only for the (unreachable, given the bounds check) out-of-range
index in `pages[pageNumber - 1]`. -/
def defaultPage : Page := ⟨0, 0, []⟩

/-- `signPdfWithImage(pdfBytes, imageDataUrl, x, y, pageNumber)`:
load the document, check `pageNumber` against `[1, pages.length]`, warn (only)
on out-of-bounds coordinates, decode and embed the image, scale its intrinsic
dimensions by the fixed `0.2` factor, draw it at `(x, y)`, save. -/
def signPdfWithImage (orc : PdfLibOracle) (pdfBytes : PdfFile)
    (imageDataUrl : String) (x y : ℚ) (pageNumber : ℤ) :
    Except SignError SignOut :=
  match pdfLoad pdfBytes with
  | none => .error .malformedDocument
  | some doc =>
    let pages := doc.pages
    if pageNumber < 1 ∨ pageNumber > (pages.length : ℤ) then
      .error (.pageOutOfBounds pageNumber pages.length)
    else
      let idx := (pageNumber - 1).toNat
      let page := pages.getD idx defaultPage
      let coordWarns :=
        if x < 0 ∨ y < 0 ∨ x > page.width ∨ y > page.height then
          [Warn.coordsOutOfBounds x y page.width page.height]
        else []
      match decodeImage orc imageDataUrl with
      | .error e => .error e
      | .ok (w, h) =>
        let page' := { page with
          elems := page.elems ++
            [Elem.image x y (w * imageScaleFactor) (h * imageScaleFactor)] }
        .ok ⟨pdfSave { pages := pages.set idx page' }, coordWarns⟩

/-- `signPdfWithText(pdfBytes, text, x, y, pageNumber, fontName, fontSize,
colorHex)`: load, page bounds check, coordinate warning, font resolution with
fallback, `hexToRgb` colour conversion, draw the text at `(x, y)`, save. -/
def signPdfWithText (orc : PdfLibOracle) (pdfBytes : PdfFile) (text : String)
    (x y : ℚ) (pageNumber : ℤ) (fontName : String) (fontSize : ℚ)
    (colorHex : String) : Except SignError SignOut :=
  match pdfLoad pdfBytes with
  | none => .error .malformedDocument
  | some doc =>
    let pages := doc.pages
    if pageNumber < 1 ∨ pageNumber > (pages.length : ℤ) then
      .error (.pageOutOfBounds pageNumber pages.length)
    else
      let idx := (pageNumber - 1).toNat
      let page := pages.getD idx defaultPage
      let coordWarns :=
        if x < 0 ∨ y < 0 ∨ x > page.width ∨ y > page.height then
          [Warn.coordsOutOfBounds x y page.width page.height]
        else []
      match resolveFont orc fontName with
      | .error e => .error e
      | .ok (font, fontWarns) =>
        match hexToRgb colorHex with
        | none => .error .invalidColorValue
        | some (r, g, b) =>
          let page' := { page with
            elems := page.elems ++
              [Elem.text text x y font fontSize r g b] }
          .ok ⟨pdfSave { pages := pages.set idx page' }, coordWarns ++ fontWarns⟩

/-- One signature request of the `/apply-signatures` batch, as parsed from the
JSON `signatures` array. -/
structure SigRequest where
  type : String
  data : String
  x : ℚ
  y : ℚ
  pageNumber : ℤ
  font : String
  fontSize : ℚ
  color : String
deriving DecidableEq, Repr

/-- One iteration of the batch loop body (inside its `try`): dispatch on
`signature.type` — `image` and `text` call the compositor, any other type
only logs `Unknown signature type` and leaves the bytes untouched. -/
def applyOne (orc : PdfLibOracle) (bytes : PdfFile) (r : SigRequest) :
    Except SignError (PdfFile × List Warn) :=
  if r.type = "image" then
    match signPdfWithImage orc bytes r.data r.x r.y r.pageNumber with
    | .error e => .error e
    | .ok out => .ok (out.bytes, out.warnings)
  else if r.type = "text" then
    match signPdfWithText orc bytes r.data r.x r.y r.pageNumber r.font
        r.fontSize r.color with
    | .error e => .error e
    | .ok out => .ok (out.bytes, out.warnings)
  else .ok (bytes, [Warn.unknownSignatureType r.type])

/-- The batch loop of `/apply-signatures`: `i` is the 1-indexed position of
the head request (`i + 1` for loop index `i` in the source); a failing step is
wrapped as `Failed to apply signature ${i + 1}: ...` and aborts the fold, a
successful step feeds its output bytes to the next request. -/
def goApply (orc : PdfLibOracle) (bytes : PdfFile) :
    List SigRequest → ℕ → List Warn → Except PipeError (PdfFile × List Warn)
  | [], _, ws => .ok (bytes, ws)
  | r :: rest, i, ws =>
    match applyOne orc bytes r with
    | .error e => .error (.applyFailed i e)
    | .ok (bytes', ws') => goApply orc bytes' rest (i + 1) (ws ++ ws')

/-- The `/apply-signatures` route core: reject an empty parsed `signatures`
array with `No signatures provided`, otherwise run the sequential loop
starting from the uploaded bytes. -/
def applySignatures (orc : PdfLibOracle) (pdfBytes : PdfFile)
    (reqs : List SigRequest) : Except PipeError (PdfFile × List Warn) :=
  if reqs.length = 0 then .error .noSignaturesProvided
  else goApply orc pdfBytes reqs 1 []

/-! ## Concrete fixtures used by witnesses and counterexamples -/

/-- A concrete library oracle: every payload decodes (PNG as 100×50, JPEG as
8×4) and standard-font embedding never throws — the behaviour of `pdf-lib` on
well-formed inputs. -/
def orc0 : PdfLibOracle where
  decodePng := fun _ => some (100, 50)
  decodeJpg := fun _ => some (8, 4)
  embedFontFails := fun _ => false

/-- A one-page 612×792 (US Letter) document. -/
def doc1 : PdfDoc := ⟨[⟨612, 792, []⟩]⟩

/-- The serialized bytes of `doc1`. -/
def pdf1 : PdfFile := .valid doc1

/-- A buffer that is not a parseable PDF. -/
def badPdf : PdfFile := .invalid [0, 1, 2]

/-- A well-formed text signature request. -/
def reqText : SigRequest :=
  ⟨"text", "Jane Doe", 100, 700, 1, "Helvetica", 24, "#000000"⟩

/-- An image request whose page number (99) is out of bounds for `doc1`. -/
def reqBadPage : SigRequest :=
  ⟨"image", "data:image/png;base64,AAA", 5, 5, 99, "", 24, "#000000"⟩

/-- A request with an unrecognized `type`. -/
def reqStamp : SigRequest := ⟨"stamp", "zzz", 1, 2, 1, "", 24, "#000000"⟩

/-- A second request with an unrecognized `type`. -/
def reqBlob : SigRequest := ⟨"blob", "qqq", 3, 4, 7, "", 24, "#000000"⟩

end DocSig

deriving instance DecidableEq for Except

namespace DocSig

/-! ## Shared helper lemmas -/

/-- A batch whose requests all have unrecognized types leaves the bytes
untouched and only accumulates skip warnings. -/
theorem goApply_all_unknown (orc : PdfLibOracle) :
    ∀ (reqs : List SigRequest) (b : PdfFile) (i : ℕ) (ws : List Warn),
      (∀ r ∈ reqs, r.type ≠ "image" ∧ r.type ≠ "text") →
      goApply orc b reqs i ws =
        .ok (b, ws ++ reqs.map fun r => Warn.unknownSignatureType r.type) := by
  intro reqs
  induction reqs with
  | nil => intro b i ws _; simp [goApply]
  | cons r rest ih =>
    intro b i ws hall
    have hr := hall r (List.mem_cons_self r rest)
    have hrest : ∀ q ∈ rest, q.type ≠ "image" ∧ q.type ≠ "text" :=
      fun q hq => hall q (List.mem_cons_of_mem r hq)
    simp only [goApply, applyOne, if_neg hr.1, if_neg hr.2]
    rw [ih b (i + 1) (ws ++ [Warn.unknownSignatureType r.type]) hrest]
    simp

/-- The batch loop distributes over list append: it runs the first chunk, and
on success continues from that chunk's output bytes with the position advanced
by the chunk's length; a failure in the first chunk is the whole result. -/
theorem goApply_append (orc : PdfLibOracle) :
    ∀ (rs1 rs2 : List SigRequest) (b : PdfFile) (i : ℕ) (ws : List Warn),
      goApply orc b (rs1 ++ rs2) i ws =
        match goApply orc b rs1 i ws with
        | .ok (b1, ws1) => goApply orc b1 rs2 (i + rs1.length) ws1
        | .error e => .error e := by
  intro rs1
  induction rs1 with
  | nil => intro rs2 b i ws; simp [goApply]
  | cons r rest ih =>
    intro rs2 b i ws
    simp only [List.cons_append, goApply]
    cases happ : applyOne orc b r with
    | error e => rfl
    | ok out =>
      obtain ⟨b', ws'⟩ := out
      dsimp only
      rw [List.append_eq, ih rs2 b' (i + 1) (ws ++ ws')]
      have hlen : i + (rest.length + 1) = i + 1 + rest.length := by omega
      simp [hlen]

/-- Full evaluation equation for `signPdfWithImage` on a loadable document,
an in-range page and a decodable image payload. -/
theorem signPdfWithImage_eq (orc : PdfLibOracle) (b : PdfFile) (doc : PdfDoc)
    (page : Page) (url : String) (x y w h : ℚ) (pageNumber : ℤ)
    (hload : pdfLoad b = some doc)
    (hpn : ¬(pageNumber < 1 ∨ pageNumber > (doc.pages.length : ℤ)))
    (hpage : doc.pages.getD (pageNumber - 1).toNat defaultPage = page)
    (hdec : decodeImage orc url = .ok (w, h)) :
    signPdfWithImage orc b url x y pageNumber =
      .ok ⟨pdfSave ⟨doc.pages.set (pageNumber - 1).toNat
          { page with elems := page.elems ++
            [Elem.image x y (w * imageScaleFactor) (h * imageScaleFactor)] }⟩,
        if x < 0 ∨ y < 0 ∨ x > page.width ∨ y > page.height then
          [Warn.coordsOutOfBounds x y page.width page.height] else []⟩ := by
  simp only [signPdfWithImage, hload]
  rw [if_neg hpn, hpage, hdec]

/-- Full evaluation equation for `signPdfWithText` on a loadable document, an
in-range page, a resolvable font and a parseable colour. -/
theorem signPdfWithText_eq (orc : PdfLibOracle) (b : PdfFile) (doc : PdfDoc)
    (page : Page) (text fontName colorHex : String) (x y fontSize : ℚ)
    (pageNumber : ℤ) (font : StdFont) (fws : List Warn) (r g b2 : ℚ)
    (hload : pdfLoad b = some doc)
    (hpn : ¬(pageNumber < 1 ∨ pageNumber > (doc.pages.length : ℤ)))
    (hpage : doc.pages.getD (pageNumber - 1).toNat defaultPage = page)
    (hfont : resolveFont orc fontName = .ok (font, fws))
    (hcol : hexToRgb colorHex = some (r, g, b2)) :
    signPdfWithText orc b text x y pageNumber fontName fontSize colorHex =
      .ok ⟨pdfSave ⟨doc.pages.set (pageNumber - 1).toNat
          { page with elems := page.elems ++
            [Elem.text text x y font fontSize r g b2] }⟩,
        (if x < 0 ∨ y < 0 ∨ x > page.width ∨ y > page.height then
          [Warn.coordsOutOfBounds x y page.width page.height] else []) ++ fws⟩ := by
  simp only [signPdfWithText, hload]
  rw [if_neg hpn, hpage, hfont, hcol]

/-- With a terminal Helvetica embed that does not throw, the font-resolution
chain never surfaces an error. -/
theorem resolveFont_never_errors (orc : PdfLibOracle)
    (h : orc.embedFontFails .helvetica = false) (name : String) :
    ∃ fw, resolveFont orc name = .ok fw := by
  by_cases h1 : jsToLower name = "helvetica"
  · exact ⟨(.helvetica, []), by simp [resolveFont, h1, h]⟩
  by_cases h2 : jsToLower name = "helvetica-bold"
  · cases hb : orc.embedFontFails .helveticaBold
    · exact ⟨(.helveticaBold, []), by simp [resolveFont, h1, h2, hb]⟩
    · exact ⟨(.helvetica, []), by simp [resolveFont, h1, h2, hb, h]⟩
  by_cases h3 : jsToLower name = "times-roman"
  · cases hb : orc.embedFontFails .timesRoman
    · exact ⟨(.timesRoman, []), by simp [resolveFont, h1, h2, h3, hb]⟩
    · exact ⟨(.helvetica, []), by simp [resolveFont, h1, h2, h3, hb, h]⟩
  by_cases h4 : jsToLower name = "courier"
  · cases hb : orc.embedFontFails .courier
    · exact ⟨(.courier, []), by simp [resolveFont, h1, h2, h3, h4, hb]⟩
    · exact ⟨(.helvetica, []), by simp [resolveFont, h1, h2, h3, h4, hb, h]⟩
  exact ⟨(.helvetica, [.fontNotFound name]),
    by simp [resolveFont, h1, h2, h3, h4, h]⟩

/-- One hex digit pair parses to sixteen times the first digit plus the
second. -/
theorem parseIntHex_pair (c d : Char) (m n : ℕ) (hc : hexDigitVal c = some m)
    (hd : hexDigitVal d = some n) :
    parseIntHex (String.mk [c, d]) = some (16 * m + n) := by
  have hdata : (String.mk [c, d]).data = [c, d] := rfl
  simp [parseIntHex, hdata, hc, hd]
  omega

/-! ## Claim theorems -/

/-- C2: for every valid PDF and every `pageNumber` outside `[1, pageCount]`,
both `signPdfWithImage` and `signPdfWithText` fail with the page-out-of-bounds
error, whose message names both the requested page number and the document's
actual page count. -/
theorem pageOutOfBounds_rejected (orc : PdfLibOracle) (b : PdfFile)
    (doc : PdfDoc) (url text fontName colorHex : String) (x y fontSize : ℚ)
    (pageNumber : ℤ) (hload : pdfLoad b = some doc)
    (hout : pageNumber < 1 ∨ pageNumber > (doc.pages.length : ℤ)) :
    signPdfWithImage orc b url x y pageNumber =
      .error (.pageOutOfBounds pageNumber doc.pages.length) ∧
    signPdfWithText orc b text x y pageNumber fontName fontSize colorHex =
      .error (.pageOutOfBounds pageNumber doc.pages.length) ∧
    signMessage (.pageOutOfBounds pageNumber doc.pages.length) =
      "Page number " ++ toString pageNumber ++ " is out of bounds. PDF has " ++
        toString doc.pages.length ++ " pages." := by
  refine ⟨?_, ?_, rfl⟩
  · simp only [signPdfWithImage, hload]
    rw [if_pos hout]
  · simp only [signPdfWithText, hload]
    rw [if_pos hout]

/-- Witness for C2: page 0 of the one-page `doc1` is rejected by both
operations with the exact message. -/
theorem pageOutOfBounds_rejected_w :
    signPdfWithImage orc0 pdf1 "data:image/png;base64,AAA" 5 5 0 =
      .error (.pageOutOfBounds 0 1) ∧
    signPdfWithText orc0 pdf1 "Jane Doe" 5 5 0 "Helvetica" 24 "#000000" =
      .error (.pageOutOfBounds 0 1) ∧
    signMessage (.pageOutOfBounds 0 1) =
      "Page number 0 is out of bounds. PDF has 1 pages." := by
  have h := pageOutOfBounds_rejected orc0 pdf1 doc1 "data:image/png;base64,AAA"
    "Jane Doe" "Helvetica" "#000000" 5 5 24 0 rfl (by decide)
  exact ⟨h.1, h.2.1, by decide⟩

/-- C7: `applySignatures` with an empty request list fails with the
`No signatures provided` error and never succeeds as a silent no-op. -/
theorem applySignatures_empty_rejected (orc : PdfLibOracle) (b : PdfFile) :
    applySignatures orc b [] = .error .noSignaturesProvided ∧
    ∀ out, applySignatures orc b [] ≠ .ok out := by
  refine ⟨rfl, fun out h => ?_⟩
  simp [applySignatures] at h

/-- Witness for C7 at a concrete buffer. -/
theorem applySignatures_empty_rejected_w :
    applySignatures orc0 pdf1 [] = .error .noSignaturesProvided :=
  (applySignatures_empty_rejected orc0 pdf1).1

/-- C8: a request whose `type` is neither `image` nor `text` is skipped with
an `Unknown signature type` warning: the bytes are unchanged, no error is
raised, and the batch continues with the next request. -/
theorem unknownType_skipped (orc : PdfLibOracle) (b : PdfFile)
    (r : SigRequest) (rest : List SigRequest) (i : ℕ) (ws : List Warn)
    (h1 : r.type ≠ "image") (h2 : r.type ≠ "text") :
    applyOne orc b r = .ok (b, [Warn.unknownSignatureType r.type]) ∧
    goApply orc b (r :: rest) i ws =
      goApply orc b rest (i + 1) (ws ++ [Warn.unknownSignatureType r.type]) := by
  have ha : applyOne orc b r = .ok (b, [Warn.unknownSignatureType r.type]) := by
    simp [applyOne, if_neg h1, if_neg h2]
  refine ⟨ha, ?_⟩
  simp only [goApply, ha]

/-- Witness for C8: a request of type `stamp` is skipped. -/
theorem unknownType_skipped_w :
    applyOne orc0 pdf1 reqStamp =
      .ok (pdf1, [Warn.unknownSignatureType "stamp"]) ∧
    goApply orc0 pdf1 [reqStamp] 1 [] =
      goApply orc0 pdf1 [] 2 [Warn.unknownSignatureType "stamp"] :=
  unknownType_skipped orc0 pdf1 reqStamp [] 1 [] (by decide) (by decide)

/-- C10: a non-empty batch in which every request's type is unrecognized
succeeds and returns exactly the input buffer — the theorem quantifies over
every `PdfFile`, including buffers that are not parseable PDFs, so the bytes
are never deserialized or re-serialized — while the empty batch is still
rejected. -/
theorem allUnknown_identity (orc : PdfLibOracle) (b : PdfFile)
    (reqs : List SigRequest) (hne : reqs ≠ [])
    (hall : ∀ r ∈ reqs, r.type ≠ "image" ∧ r.type ≠ "text") :
    applySignatures orc b reqs =
      .ok (b, reqs.map fun r => Warn.unknownSignatureType r.type) ∧
    applySignatures orc b [] = .error .noSignaturesProvided := by
  refine ⟨?_, rfl⟩
  rw [applySignatures, if_neg (fun h => hne (List.length_eq_zero.mp h))]
  simpa using goApply_all_unknown orc reqs b 1 [] hall

/-- Witness for C10: two unknown-type requests over a buffer that is not even
a parseable PDF come back untouched. -/
theorem allUnknown_identity_w :
    applySignatures orc0 badPdf [reqStamp, reqBlob] =
      .ok (badPdf, [Warn.unknownSignatureType "stamp",
        Warn.unknownSignatureType "blob"]) :=
  (allUnknown_identity orc0 badPdf [reqStamp, reqBlob] (by decide)
    (by decide)).1

/-- C1: on a non-empty request list `applySignatures` is the sequential loop
started at position 1; the loop distributes over append, feeding each chunk's
output bytes to the next chunk with the position advanced (sequential fold);
the first failing request aborts the whole batch with only an error — no
partial bytes — whose position is 1-indexed and whose message wraps the
underlying error's message. -/
theorem applySignatures_sequential_firstFailure (orc : PdfLibOracle)
    (b : PdfFile) (reqs : List SigRequest) (hne : reqs ≠ []) :
    applySignatures orc b reqs = goApply orc b reqs 1 [] ∧
    (∀ (b0 : PdfFile) (rs1 rs2 : List SigRequest) (i : ℕ) (ws : List Warn),
      goApply orc b0 (rs1 ++ rs2) i ws =
        match goApply orc b0 rs1 i ws with
        | .ok (b1, ws1) => goApply orc b1 rs2 (i + rs1.length) ws1
        | .error e => .error e) ∧
    (∀ (b0 : PdfFile) (r : SigRequest) (rest : List SigRequest) (i : ℕ)
        (ws : List Warn) (e : SignError), applyOne orc b0 r = .error e →
      goApply orc b0 (r :: rest) i ws = .error (.applyFailed i e)) ∧
    (∀ (i : ℕ) (e : SignError), pipeMessage (.applyFailed i e) =
      "Failed to apply signature " ++ toString i ++ ": " ++ signMessage e) := by
  refine ⟨?_, fun b0 rs1 rs2 i ws => goApply_append orc rs1 rs2 b0 i ws,
    fun b0 r rest i ws e he => ?_, fun i e => rfl⟩
  · rw [applySignatures, if_neg (fun hc => hne (List.length_eq_zero.mp hc))]
  · simp only [goApply, he]

/-- Witness for C1: a batch whose first request targets page 99 of a one-page
document aborts at position 1 with the wrapped message. -/
theorem applySignatures_sequential_firstFailure_w :
    applySignatures orc0 pdf1 [reqText] = goApply orc0 pdf1 [reqText] 1 [] ∧
    goApply orc0 pdf1 [reqBadPage, reqText] 1 [] =
      .error (.applyFailed 1 (.pageOutOfBounds 99 1)) ∧
    pipeMessage (.applyFailed 1 (.pageOutOfBounds 99 1)) =
      "Failed to apply signature 1: Page number 99 is out of bounds. PDF has 1 pages." := by
  have h := applySignatures_sequential_firstFailure orc0 pdf1 [reqText]
    (by decide)
  refine ⟨h.1, h.2.2.1 pdf1 reqBadPage [reqText] 1 []
    (.pageOutOfBounds 99 1) (by decide), (h.2.2.2 1 _).trans (by decide)⟩

/-- C3: with the library's terminal Helvetica embed non-failing (as the spec
asserts of the fallback), font resolution never raises: the four standard
names resolve case-insensitively (falling back to Helvetica should their
embed throw), every other name resolves to Helvetica with only a warning, and
`signPdfWithText` therefore succeeds for every `fontName`. -/
theorem fontResolution_fallback (orc : PdfLibOracle)
    (horc : orc.embedFontFails .helvetica = false) :
    (∀ name, jsToLower name = "helvetica" →
      resolveFont orc name = .ok (.helvetica, [])) ∧
    (∀ name, jsToLower name = "helvetica-bold" → resolveFont orc name =
      .ok ((if orc.embedFontFails .helveticaBold = true then .helvetica
        else .helveticaBold), [])) ∧
    (∀ name, jsToLower name = "times-roman" → resolveFont orc name =
      .ok ((if orc.embedFontFails .timesRoman = true then .helvetica
        else .timesRoman), [])) ∧
    (∀ name, jsToLower name = "courier" → resolveFont orc name =
      .ok ((if orc.embedFontFails .courier = true then .helvetica
        else .courier), [])) ∧
    (∀ name, jsToLower name ≠ "helvetica" → jsToLower name ≠ "helvetica-bold" →
      jsToLower name ≠ "times-roman" → jsToLower name ≠ "courier" →
      resolveFont orc name = .ok (.helvetica, [.fontNotFound name])) ∧
    (∀ name, ∃ fw, resolveFont orc name = .ok fw) ∧
    (∀ (b : PdfFile) (doc : PdfDoc) (text fontName colorHex : String)
        (x y fontSize : ℚ) (pageNumber : ℤ) (c : ℚ × ℚ × ℚ),
      pdfLoad b = some doc →
      ¬(pageNumber < 1 ∨ pageNumber > (doc.pages.length : ℤ)) →
      hexToRgb colorHex = some c →
      ∃ out, signPdfWithText orc b text x y pageNumber fontName fontSize
        colorHex = .ok out) := by
  refine ⟨fun name h1 => by simp [resolveFont, h1, horc],
    fun name h2 => ?_, fun name h3 => ?_, fun name h4 => ?_,
    fun name h1 h2 h3 h4 => by simp [resolveFont, h1, h2, h3, h4, horc],
    resolveFont_never_errors orc horc,
    fun b doc text fontName colorHex x y fontSize pageNumber c hload hpn
      hcol => ?_⟩
  · by_cases h1 : jsToLower name = "helvetica"
    · rw [h1] at h2; exact absurd h2 (by decide)
    cases hb : orc.embedFontFails .helveticaBold <;>
      simp [resolveFont, h1, h2, hb, horc]
  · by_cases h1 : jsToLower name = "helvetica"
    · rw [h1] at h3; exact absurd h3 (by decide)
    by_cases h2 : jsToLower name = "helvetica-bold"
    · rw [h2] at h3; exact absurd h3 (by decide)
    cases hb : orc.embedFontFails .timesRoman <;>
      simp [resolveFont, h1, h2, h3, hb, horc]
  · by_cases h1 : jsToLower name = "helvetica"
    · rw [h1] at h4; exact absurd h4 (by decide)
    by_cases h2 : jsToLower name = "helvetica-bold"
    · rw [h2] at h4; exact absurd h4 (by decide)
    by_cases h3 : jsToLower name = "times-roman"
    · rw [h3] at h4; exact absurd h4 (by decide)
    cases hb : orc.embedFontFails .courier <;>
      simp [resolveFont, h1, h2, h3, h4, hb, horc]
  · obtain ⟨⟨font, fws⟩, hfont⟩ := resolveFont_never_errors orc horc fontName
    obtain ⟨r, g, b2⟩ := c
    exact ⟨_, signPdfWithText_eq orc b doc
      (doc.pages.getD (pageNumber - 1).toNat defaultPage) text fontName
      colorHex x y fontSize pageNumber font fws r g b2 hload hpn rfl hfont
      hcol⟩

/-- Witness for C3: the unrecognized name `Comic-Sans-9000` resolves to
Helvetica with only a warning and the text signature still succeeds. -/
theorem fontResolution_fallback_w :
    resolveFont orc0 "Comic-Sans-9000" =
      .ok (.helvetica, [.fontNotFound "Comic-Sans-9000"]) ∧
    ∃ out, signPdfWithText orc0 pdf1 "Jane Doe" 100 700 1 "Comic-Sans-9000"
      24 "#000000" = .ok out := by
  have h := fontResolution_fallback orc0 rfl
  exact ⟨h.2.2.2.2.1 "Comic-Sans-9000" (by decide) (by decide) (by decide)
      (by decide),
    h.2.2.2.2.2.2 pdf1 doc1 "Jane Doe" "Comic-Sans-9000" "#000000" 100 700 24
      1 (((0 : ℕ) : ℚ) / 255, ((0 : ℕ) : ℚ) / 255, ((0 : ℕ) : ℚ) / 255) rfl
      (by decide) rfl⟩

/-- C4 (amended): for a `colorHex` of the form `#` followed by six hex
digits, `signPdfWithText` draws with channels `parseInt(pair, 16) / 255`
taken from character positions 1–2, 3–4 and 5–6 — the first character is
skipped unconditionally, so the claim's formula holds for the 7-character
`#RRGGBB` form, and the drawn colour is exactly the `hexToRgb` triple. -/
theorem hexColorChannels (c1 c2 c3 c4 c5 c6 : Char) (d1 d2 d3 d4 d5 d6 : ℕ)
    (h1 : hexDigitVal c1 = some d1) (h2 : hexDigitVal c2 = some d2)
    (h3 : hexDigitVal c3 = some d3) (h4 : hexDigitVal c4 = some d4)
    (h5 : hexDigitVal c5 = some d5) (h6 : hexDigitVal c6 = some d6) :
    hexToRgb (String.mk ['#', c1, c2, c3, c4, c5, c6]) =
      some (((16 * d1 + d2 : ℕ) : ℚ) / 255, ((16 * d3 + d4 : ℕ) : ℚ) / 255,
        ((16 * d5 + d6 : ℕ) : ℚ) / 255) ∧
    (∀ (orc : PdfLibOracle) (b : PdfFile) (doc : PdfDoc) (page : Page)
        (text fontName colorHex : String) (x y fontSize : ℚ)
        (pageNumber : ℤ) (font : StdFont) (fws : List Warn) (r g b2 : ℚ),
      pdfLoad b = some doc →
      ¬(pageNumber < 1 ∨ pageNumber > (doc.pages.length : ℤ)) →
      doc.pages.getD (pageNumber - 1).toNat defaultPage = page →
      resolveFont orc fontName = .ok (font, fws) →
      hexToRgb colorHex = some (r, g, b2) →
      signPdfWithText orc b text x y pageNumber fontName fontSize colorHex =
        .ok ⟨pdfSave ⟨doc.pages.set (pageNumber - 1).toNat
            { page with elems := page.elems ++
              [Elem.text text x y font fontSize r g b2] }⟩,
          (if x < 0 ∨ y < 0 ∨ x > page.width ∨ y > page.height then
            [Warn.coordsOutOfBounds x y page.width page.height] else []) ++
            fws⟩) := by
  constructor
  · have e1 : jsSubstring (String.mk ['#', c1, c2, c3, c4, c5, c6]) 1 3 =
        String.mk [c1, c2] := rfl
    have e2 : jsSubstring (String.mk ['#', c1, c2, c3, c4, c5, c6]) 3 5 =
        String.mk [c3, c4] := rfl
    have e3 : jsSubstring (String.mk ['#', c1, c2, c3, c4, c5, c6]) 5 7 =
        String.mk [c5, c6] := rfl
    rw [hexToRgb, e1, e2, e3, parseIntHex_pair c1 c2 d1 d2 h1 h2,
      parseIntHex_pair c3 c4 d3 d4 h3 h4, parseIntHex_pair c5 c6 d5 d6 h5 h6]
  · intro orc b doc page text fontName colorHex x y fontSize pageNumber font
      fws r g b2 hload hpn hpage hfont hcol
    exact signPdfWithText_eq orc b doc page text fontName colorHex x y
      fontSize pageNumber font fws r g b2 hload hpn hpage hfont hcol

/-- C4 counterexample: the `#` prefix is not optional.  `hexToRgb` always
drops the first character, so the bare six-digit `ff0000` parses as the
shifted pairs `f0`, `00`, `0` — channels `(240/255, 0, 0)` — while
`#ff0000` parses as `(255/255, 0, 0)`; the two draws therefore differ. -/
theorem hexColorChannels_cex :
    hexToRgb "#ff0000" = some (255 / 255, 0 / 255, 0 / 255) ∧
    hexToRgb "ff0000" = some (240 / 255, 0 / 255, 0 / 255) ∧
    hexToRgb "ff0000" ≠ hexToRgb "#ff0000" ∧
    signPdfWithText orc0 pdf1 "Jane Doe" 10 20 1 "helvetica" 24 "ff0000" ≠
      signPdfWithText orc0 pdf1 "Jane Doe" 10 20 1 "helvetica" 24
        "#ff0000" := by
  have ha : hexToRgb "ff0000" =
      some (((240 : ℕ) : ℚ) / 255, ((0 : ℕ) : ℚ) / 255,
        ((0 : ℕ) : ℚ) / 255) := rfl
  have hb : hexToRgb "#ff0000" =
      some (((255 : ℕ) : ℚ) / 255, ((0 : ℕ) : ℚ) / 255,
        ((0 : ℕ) : ℚ) / 255) := rfl
  refine ⟨hb.trans (by norm_num), ha.trans (by norm_num), ?_, ?_⟩
  · rw [ha, hb]
    intro h
    simp only [Option.some.injEq, Prod.mk.injEq] at h
    have hch := h.1
    norm_num at hch
  · have hfont : resolveFont orc0 "helvetica" = .ok (.helvetica, []) := rfl
    have hev1 := signPdfWithText_eq orc0 pdf1 doc1 ⟨612, 792, []⟩ "Jane Doe"
      "helvetica" "ff0000" 10 20 24 1 .helvetica []
      (((240 : ℕ) : ℚ) / 255) (((0 : ℕ) : ℚ) / 255) (((0 : ℕ) : ℚ) / 255)
      rfl (by decide) rfl hfont ha
    have hev2 := signPdfWithText_eq orc0 pdf1 doc1 ⟨612, 792, []⟩ "Jane Doe"
      "helvetica" "#ff0000" 10 20 24 1 .helvetica []
      (((255 : ℕ) : ℚ) / 255) (((0 : ℕ) : ℚ) / 255) (((0 : ℕ) : ℚ) / 255)
      rfl (by decide) rfl hfont hb
    rw [hev1, hev2]
    intro h
    norm_num [pdfSave, doc1] at h

/-- Witness for C4's amended theorem at `#ff0000` and a concrete draw. -/
theorem hexColorChannels_w :
    hexToRgb (String.mk ['#', 'f', 'f', '0', '0', '0', '0']) =
      some (((16 * 15 + 15 : ℕ) : ℚ) / 255, ((16 * 0 + 0 : ℕ) : ℚ) / 255,
        ((16 * 0 + 0 : ℕ) : ℚ) / 255) ∧
    signPdfWithText orc0 pdf1 "Jane Doe" 10 20 1 "helvetica" 24 "#000000" =
      .ok ⟨.valid ⟨[⟨612, 792,
          [Elem.text "Jane Doe" 10 20 .helvetica 24 0 0 0]⟩]⟩, []⟩ := by
  have h := hexColorChannels 'f' 'f' '0' '0' '0' '0' 15 15 0 0 0 0
    (by decide) (by decide) (by decide) (by decide) (by decide) (by decide)
  refine ⟨h.1, ?_⟩
  have hev := h.2 orc0 pdf1 doc1 ⟨612, 792, []⟩ "Jane Doe" "helvetica"
    "#000000" 10 20 24 1 .helvetica [] (((0 : ℕ) : ℚ) / 255)
    (((0 : ℕ) : ℚ) / 255) (((0 : ℕ) : ℚ) / 255) rfl (by decide) rfl rfl rfl
  refine hev.trans ?_
  norm_num [pdfSave, doc1]

/-- C5 (amended): an image data URL that contains a comma and whose prefix is
neither `data:image/png` nor `data:image/jpeg` fails with the
`Unsupported image format` error (with its exact message); a data URL with no
comma at all never reaches the format branch — `Buffer.from(undefined)`
throws a type error first. -/
theorem unsupportedFormat_amended (orc : PdfLibOracle) (b : PdfFile)
    (doc : PdfDoc) (url url2 : String) (x y : ℚ) (pageNumber : ℤ)
    (hload : pdfLoad b = some doc)
    (hpn : ¬(pageNumber < 1 ∨ pageNumber > (doc.pages.length : ℤ))) :
    (∀ payload, (jsSplitComma url).get? 1 = some payload →
      jsStartsWith url ("data:image/png") = false →
      jsStartsWith url ("data:image/jpeg") = false →
      signPdfWithImage orc b url x y pageNumber =
        .error .unsupportedImageFormat) ∧
    ((jsSplitComma url2).get? 1 = none →
      signPdfWithImage orc b url2 x y pageNumber =
        .error .base64InputTypeError) ∧
    signMessage .unsupportedImageFormat =
      "Unsupported image format. Only PNG and JPEG are supported." := by
  refine ⟨fun payload hsplit hpng hjpg => ?_, fun hsplit => ?_, rfl⟩
  · have hdec : decodeImage orc url = .error .unsupportedImageFormat := by
      rw [decodeImage, hsplit]
      simp [hpng, hjpg]
    simp only [signPdfWithImage, hload]
    rw [if_neg hpn, hdec]
  · have hdec : decodeImage orc url2 = .error .base64InputTypeError := by
      rw [decodeImage, hsplit]
    simp only [signPdfWithImage, hload]
    rw [if_neg hpn, hdec]

/-- C5 counterexample: for the comma-less input `hello` — whose prefix is
neither PNG nor JPEG — `signPdfWithImage` fails with the base64 type error,
not with `Unsupported image format` as the claim states for every such
input. -/
theorem unsupportedFormat_cex :
    signPdfWithImage orc0 pdf1 "hello" 0 0 1 =
      .error .base64InputTypeError ∧
    jsStartsWith "hello" ("data:image/png") = false ∧
    jsStartsWith "hello" ("data:image/jpeg") = false ∧
    signPdfWithImage orc0 pdf1 "hello" 0 0 1 ≠
      .error .unsupportedImageFormat := by
  refine ⟨rfl, rfl, rfl, ?_⟩
  intro h
  have : SignError.base64InputTypeError = SignError.unsupportedImageFormat :=
    by
      have hr : signPdfWithImage orc0 pdf1 "hello" 0 0 1 =
          .error .base64InputTypeError := rfl
      rw [hr] at h
      exact Except.error.inj h
  exact absurd this (by decide)

/-- Witness for C5's amended theorem: a GIF data URL (with a comma) is
rejected as unsupported, and a comma-less URL raises the type error. -/
theorem unsupportedFormat_amended_w :
    signPdfWithImage orc0 pdf1 "data:image/gif;base64,AAA" 0 0 1 =
      .error .unsupportedImageFormat ∧
    signPdfWithImage orc0 pdf1 "hi" 0 0 1 = .error .base64InputTypeError ∧
    signMessage .unsupportedImageFormat =
      "Unsupported image format. Only PNG and JPEG are supported." := by
  have h := unsupportedFormat_amended orc0 pdf1 doc1
    "data:image/gif;base64,AAA" "hi" 0 0 1 rfl (by decide)
  exact ⟨h.1 "AAA" (by decide) (by decide) (by decide), h.2.1 (by decide),
    h.2.2⟩

/-- C6: out-of-bounds coordinates never make either signing operation fail:
given an otherwise valid request, both operations succeed, the out-of-bounds
condition is flagged only as a warning, and the element is drawn at exactly
`(x, y)`. -/
theorem coordsOutOfBounds_warn_only (orc : PdfLibOracle) (b : PdfFile)
    (doc : PdfDoc) (page : Page) (x y : ℚ) (pageNumber : ℤ)
    (hload : pdfLoad b = some doc)
    (hpn : ¬(pageNumber < 1 ∨ pageNumber > (doc.pages.length : ℤ)))
    (hpage : doc.pages.getD (pageNumber - 1).toNat defaultPage = page)
    (hoob : x < 0 ∨ y < 0 ∨ x > page.width ∨ y > page.height) :
    (∀ url w h, decodeImage orc url = .ok (w, h) →
      signPdfWithImage orc b url x y pageNumber =
        .ok ⟨pdfSave ⟨doc.pages.set (pageNumber - 1).toNat
            { page with elems := page.elems ++
              [Elem.image x y (w * imageScaleFactor)
                (h * imageScaleFactor)] }⟩,
          [Warn.coordsOutOfBounds x y page.width page.height]⟩) ∧
    (∀ (text fontName colorHex : String) (fontSize : ℚ) (font : StdFont)
        (fws : List Warn) (r g b2 : ℚ),
      resolveFont orc fontName = .ok (font, fws) →
      hexToRgb colorHex = some (r, g, b2) →
      signPdfWithText orc b text x y pageNumber fontName fontSize colorHex =
        .ok ⟨pdfSave ⟨doc.pages.set (pageNumber - 1).toNat
            { page with elems := page.elems ++
              [Elem.text text x y font fontSize r g b2] }⟩,
          [Warn.coordsOutOfBounds x y page.width page.height] ++ fws⟩) := by
  constructor
  · intro url w h hdec
    have he := signPdfWithImage_eq orc b doc page url x y w h pageNumber
      hload hpn hpage hdec
    rw [he, if_pos hoob]
  · intro text fontName colorHex fontSize font fws r g b2 hfont hcol
    have he := signPdfWithText_eq orc b doc page text fontName colorHex x y
      fontSize pageNumber font fws r g b2 hload hpn hpage hfont hcol
    rw [he, if_pos hoob]

/-- Witness for C6: `x = 700` exceeds the 612-wide page; the image is still
drawn at exactly `(700, 20)` and only a warning is emitted. -/
theorem coordsOutOfBounds_warn_only_w :
    signPdfWithImage orc0 pdf1 "data:image/png;base64,AAA" 700 20 1 =
      .ok ⟨.valid ⟨[⟨612, 792, [Elem.image 700 20 20 10]⟩]⟩,
        [Warn.coordsOutOfBounds 700 20 612 792]⟩ := by
  have h := coordsOutOfBounds_warn_only orc0 pdf1 doc1 ⟨612, 792, []⟩ 700 20
    1 rfl (by decide) rfl (by decide)
  have he := h.1 "data:image/png;base64,AAA" 100 50 rfl
  refine he.trans ?_
  norm_num [pdfSave, doc1, imageScaleFactor]

/-- C9: a successfully decoded image is drawn with width and height equal to
its intrinsic dimensions times the fixed factor `0.2` (`= 1/5`); the factor
is a constant of the code and the drawn dimensions depend on nothing in the
request besides the image payload itself. -/
theorem imageScale_fixed (orc : PdfLibOracle) (b : PdfFile) (doc : PdfDoc)
    (page : Page) (url : String) (x y w h : ℚ) (pageNumber : ℤ)
    (hload : pdfLoad b = some doc)
    (hpn : ¬(pageNumber < 1 ∨ pageNumber > (doc.pages.length : ℤ)))
    (hpage : doc.pages.getD (pageNumber - 1).toNat defaultPage = page)
    (hdec : decodeImage orc url = .ok (w, h)) :
    signPdfWithImage orc b url x y pageNumber =
      .ok ⟨pdfSave ⟨doc.pages.set (pageNumber - 1).toNat
          { page with elems := page.elems ++
            [Elem.image x y (w * imageScaleFactor) (h * imageScaleFactor)] }⟩,
        if x < 0 ∨ y < 0 ∨ x > page.width ∨ y > page.height then
          [Warn.coordsOutOfBounds x y page.width page.height] else []⟩ ∧
    imageScaleFactor = 1 / 5 := by
  refine ⟨signPdfWithImage_eq orc b doc page url x y w h pageNumber hload
    hpn hpage hdec, by norm_num [imageScaleFactor]⟩

/-- Witness for C9: a 100×50 PNG is drawn as 20×10 at in-bounds (10, 20). -/
theorem imageScale_fixed_w :
    signPdfWithImage orc0 pdf1 "data:image/png;base64,AAA" 10 20 1 =
      .ok ⟨.valid ⟨[⟨612, 792, [Elem.image 10 20 20 10]⟩]⟩, []⟩ ∧
    imageScaleFactor = 1 / 5 := by
  have h := imageScale_fixed orc0 pdf1 doc1 ⟨612, 792, []⟩
    "data:image/png;base64,AAA" 10 20 100 50 1 rfl (by decide) rfl rfl
  refine ⟨h.1.trans ?_, h.2⟩
  norm_num [pdfSave, doc1, imageScaleFactor]

end DocSig
